import Mathlib

/-!
Verification of the subtitle selection controller of
`src/aegisub/src/selection_controller.h`.

Line handles (`AssDialogue *`) are opaque pointers owned by the document
model; we embed them as natural numbers, with `Option Nat` for a nullable
pointer (`none` = `NULL` = "no active line").  `SubtitleSelection` is
`std::vector<AssDialogue *>`, embedded as `List Nat`.  Listener handles
(`SubtitleSelectionListener *`) are likewise embedded as `Nat`, and the
`std::set` of listeners as a `Finset Nat` (std::set iterates its elements in
increasing key order, embedded via `Finset.sort`).

Effects are made explicit: a mutator returns the new controller state paired
with the list of listener callbacks it performed, in order.
-/

/-- The list type `SubtitleSelection = std::vector<AssDialogue *>`. -/
abbrev SubtitleSelection := List Nat

/-- One callback performed on a `SubtitleSelectionListener`: either
`OnActiveLineChanged(new_line)` or `OnSelectedSetChanged(new_selection)`,
tagged with the listener it was delivered to. -/
inductive Notification where
  | activeLineChanged (listener : Nat) (newLine : Option Nat)
  | selectedSetChanged (listener : Nat) (newSelection : List Nat)
deriving DecidableEq, Repr

/-- The listener a callback was delivered to. -/
def Notification.listener : Notification → Nat
  | .activeLineChanged l _ => l
  | .selectedSetChanged l _ => l

/-- Whether a callback is an `OnActiveLineChanged` delivered to listener `l`. -/
def Notification.isActiveFor (l : Nat) : Notification → Bool
  | .activeLineChanged k _ => k == l
  | .selectedSetChanged _ _ => false

/-- Whether a callback is an `OnSelectedSetChanged` delivered to listener `l`. -/
def Notification.isSelectedFor (l : Nat) : Notification → Bool
  | .activeLineChanged _ _ => false
  | .selectedSetChanged k _ => k == l

namespace Base

/-- State of `BaseSubtitleSelectionController`: its only data member is
`std::set<SubtitleSelectionListener *> listeners`. -/
structure Controller where
  listeners : Finset Nat
deriving DecidableEq

/-- `AddSelectionListener`: `listeners.insert(listener)`. -/
def Controller.addSelectionListener (c : Controller) (l : Nat) : Controller :=
  { c with listeners := insert l c.listeners }

/-- `RemoveSelectionListener`: `listeners.erase(listener)`. -/
def Controller.removeSelectionListener (c : Controller) (l : Nat) : Controller :=
  { c with listeners := c.listeners.erase l }

/-- `AnnounceActiveLineChanged`: iterate over `listeners` (in std::set key
order) calling `OnActiveLineChanged(new_line)` on each.  The member set is
only read, so the state component of the result is the input state. -/
def Controller.announceActiveLineChanged (c : Controller) (newLine : Option Nat) :
    Controller × List Notification :=
  (c, (c.listeners.sort (· ≤ ·)).map (fun l => Notification.activeLineChanged l newLine))

/-- `AnnounceSelectedSetChanged`: iterate over `listeners` (in std::set key
order) calling `OnSelectedSetChanged(new_selection)` on each. -/
def Controller.announceSelectedSetChanged (c : Controller) (newSelection : SubtitleSelection) :
    Controller × List Notification :=
  (c, (c.listeners.sort (· ≤ ·)).map (fun l => Notification.selectedSetChanged l newSelection))

/-- The operations callable on a `BaseSubtitleSelectionController` itself:
the two public registration methods and the two protected announce methods
(called by subclasses). -/
inductive Op where
  | add (l : Nat)
  | remove (l : Nat)
  | announceActive (x : Option Nat)
  | announceSel (s : SubtitleSelection)
deriving DecidableEq, Repr

/-- Dispatch one operation on the base controller. -/
def Controller.step (c : Controller) : Op → Controller × List Notification
  | .add l => (c.addSelectionListener l, [])
  | .remove l => (c.removeSelectionListener l, [])
  | .announceActive x => c.announceActiveLineChanged x
  | .announceSel s => c.announceSelectedSetChanged s

/-- Run a sequence of operations, collecting all callbacks performed. -/
def Controller.run (c : Controller) : List Op → Controller × List Notification
  | [] => (c, [])
  | op :: ops =>
    let r := c.step op
    let r' := r.1.run ops
    (r'.1, r.2 ++ r'.2)

end Base

namespace Dummy

/-- State of `DummySubtitleSelectionController`: the class has no data
members at all. -/
structure Controller where
deriving DecidableEq, Repr

/-- `SetActiveLine(new_line) { }`: empty body, no state change, no callback. -/
def Controller.setActiveLine (c : Controller) (newLine : Option Nat) :
    Controller × List Notification :=
  (c, [])

/-- `GetActiveLine() const { return 0; }`: always the null pointer. -/
def Controller.getActiveLine (c : Controller) : Option Nat :=
  none

/-- `SetSelectedSet(new_selection) { }`: empty body. -/
def Controller.setSelectedSet (c : Controller) (newSelection : SubtitleSelection) :
    Controller × List Notification :=
  (c, [])

/-- `GetSelectedSet(selection) const { }`: the caller passes its container by
reference and the empty body never touches it, so the container comes back
exactly as passed in. -/
def Controller.getSelectedSet (c : Controller) (selection : SubtitleSelection) :
    SubtitleSelection :=
  selection

/-- `NextLine() { }`: empty body. -/
def Controller.nextLine (c : Controller) : Controller × List Notification :=
  (c, [])

/-- `PrevLine() { }`: empty body. -/
def Controller.prevLine (c : Controller) : Controller × List Notification :=
  (c, [])

/-- `AddSelectionListener(listener) { }`: empty body, the listener is not
recorded anywhere. -/
def Controller.addSelectionListener (c : Controller) (l : Nat) :
    Controller × List Notification :=
  (c, [])

/-- `RemoveSelectionListener(listener) { }`: empty body. -/
def Controller.removeSelectionListener (c : Controller) (l : Nat) :
    Controller × List Notification :=
  (c, [])

/-- The mutators and registration calls of the dummy controller. -/
inductive Op where
  | setActiveLine (x : Option Nat)
  | setSelectedSet (s : SubtitleSelection)
  | nextLine
  | prevLine
  | add (l : Nat)
  | remove (l : Nat)
deriving DecidableEq, Repr

/-- Dispatch one operation on the dummy controller. -/
def Controller.step (c : Controller) : Op → Controller × List Notification
  | .setActiveLine x => c.setActiveLine x
  | .setSelectedSet s => c.setSelectedSet s
  | .nextLine => c.nextLine
  | .prevLine => c.prevLine
  | .add l => c.addSelectionListener l
  | .remove l => c.removeSelectionListener l

/-- Run a sequence of operations on the dummy controller. -/
def Controller.run (c : Controller) : List Op → Controller × List Notification
  | [] => (c, [])
  | op :: ops =>
    let r := c.step op
    let r' := r.1.run ops
    (r'.1, r.2 ++ r'.2)

end Dummy

namespace Spec

/-- Modelled from the spec: the concrete selection controller implementing
the pure-virtual `SubtitleSelectionController` interface (the subtitle grid
of the main GUI) is not part of the visible source; only the interface
declaration and its documented contract are.  Following the spec's data
model: zero or one active line, a selected set of line references
(unordered, uniqueness by identity), and a set of registered listener
handles. -/
structure Controller where
  activeLine : Option Nat
  selectedSet : Finset Nat
  listeners : Finset Nat
deriving DecidableEq

/-- Modelled from the spec: notify every registered listener with the new
active line. -/
def Controller.announceActiveLineChanged (c : Controller) (newLine : Option Nat) :
    List Notification :=
  (c.listeners.sort (· ≤ ·)).map (fun l => Notification.activeLineChanged l newLine)

/-- Modelled from the spec: notify every registered listener with the new
selected set (delivered in a canonical order, the set being unordered). -/
def Controller.announceSelectedSetChanged (c : Controller) (s : Finset Nat) :
    List Notification :=
  (c.listeners.sort (· ≤ ·)).map (fun l => Notification.selectedSetChanged l (s.sort (· ≤ ·)))

/-- Modelled from the spec: `SetActiveLine(line-or-none)` replaces the active
line; no-op (and no notification) if the new value equals the current value
(including both being none); otherwise replaces and notifies all registered
listeners with the new value. -/
def Controller.setActiveLine (c : Controller) (newLine : Option Nat) :
    Controller × List Notification :=
  if newLine = c.activeLine then (c, [])
  else ({ c with activeLine := newLine }, c.announceActiveLineChanged newLine)

/-- Modelled from the spec: `GetActiveLine()` returns the current active line
or none; pure read. -/
def Controller.getActiveLine (c : Controller) : Option Nat :=
  c.activeLine

/-- Modelled from the spec: `SetSelectedSet(set)` replaces the entire
selected set atomically; implementations may refuse the change under
implementation-defined conditions (modelled by the parameter `accept`), in
which case prior state is retained unchanged and no notification is sent;
if accepted and the content differs from before, notifies listeners with
the new set.  The argument arrives as a `SubtitleSelection` (a vector);
its content as a set is what is stored and compared. -/
def Controller.setSelectedSet (accept : Finset Nat → Bool) (c : Controller)
    (newSelection : SubtitleSelection) : Controller × List Notification :=
  let s := newSelection.toFinset
  if accept s then
    if s = c.selectedSet then (c, [])
    else ({ c with selectedSet := s }, c.announceSelectedSetChanged s)
  else (c, [])

/-- Modelled from the spec: `GetSelectedSet()` returns a copy of the current
selected set. -/
def Controller.getSelectedSet (c : Controller) : Finset Nat :=
  c.selectedSet

/-- Modelled from the spec: the document's logical line ordering is owned by
the document model, embedded here as a list of line handles; this returns
the line following the first occurrence of `l`, if any. -/
def nextLineIn (doc : List Nat) (l : Nat) : Option Nat :=
  match doc with
  | [] => none
  | a :: rest => if a = l then rest.head? else nextLineIn rest l

/-- Modelled from the spec: the line preceding the first occurrence of `l`
in document order, if any. -/
def prevLineIn (doc : List Nat) (l : Nat) : Option Nat :=
  nextLineIn doc.reverse l

/-- Modelled from the spec: the navigation step common to `NextLine()` and
`PrevLine()`: move the active line to its neighbor under the document
ordering when one exists; at a boundary (no active line, or no neighbor),
state is unchanged and nothing fires; on success, set the active line to
the neighbor, reset the selected set to the singleton of the neighbor, and
fire both notifications. -/
def Controller.navigate (neighbor : Nat → Option Nat) (c : Controller) :
    Controller × List Notification :=
  match c.activeLine.bind neighbor with
  | none => (c, [])
  | some l' =>
    ({ c with activeLine := some l', selectedSet := {l'} },
      c.announceActiveLineChanged (some l') ++ c.announceSelectedSetChanged {l'})

/-- Modelled from the spec: `NextLine()` advances the active line along the
document's logical line ordering. -/
def Controller.nextLine (doc : List Nat) (c : Controller) :
    Controller × List Notification :=
  c.navigate (nextLineIn doc)

/-- Modelled from the spec: `PrevLine()` retreats the active line along the
document's logical line ordering. -/
def Controller.prevLine (doc : List Nat) (c : Controller) :
    Controller × List Notification :=
  c.navigate (prevLineIn doc)

/-- Modelled from the spec: `AddSelectionListener` is an idempotent set
insertion with no notification side effects. -/
def Controller.addSelectionListener (c : Controller) (l : Nat) : Controller :=
  { c with listeners := insert l c.listeners }

/-- Modelled from the spec: `RemoveSelectionListener` is an idempotent set
removal with no notification side effects. -/
def Controller.removeSelectionListener (c : Controller) (l : Nat) : Controller :=
  { c with listeners := c.listeners.erase l }

end Spec

/-! ### Counting helpers for announcement fan-out -/

theorem countP_listener_map_active (L : List Nat) (x : Option Nat) (l : Nat) :
    ((L.map fun k => Notification.activeLineChanged k x).countP fun n => n.listener == l)
      = L.count l := by
  rw [List.countP_map, List.count_eq_countP]
  rfl

theorem countP_listener_map_sel (L : List Nat) (s : List Nat) (l : Nat) :
    ((L.map fun k => Notification.selectedSetChanged k s).countP fun n => n.listener == l)
      = L.count l := by
  rw [List.countP_map, List.count_eq_countP]
  rfl

theorem countP_isActiveFor_map_active (L : List Nat) (x : Option Nat) (l : Nat) :
    ((L.map fun k => Notification.activeLineChanged k x).countP (Notification.isActiveFor l))
      = L.count l := by
  rw [List.countP_map, List.count_eq_countP]
  rfl

theorem countP_isActiveFor_map_sel (L : List Nat) (s : List Nat) (l : Nat) :
    ((L.map fun k => Notification.selectedSetChanged k s).countP (Notification.isActiveFor l))
      = 0 := by
  rw [List.countP_map]
  simp [Function.comp_def, Notification.isActiveFor]

theorem countP_isSelectedFor_map_active (L : List Nat) (x : Option Nat) (l : Nat) :
    ((L.map fun k => Notification.activeLineChanged k x).countP (Notification.isSelectedFor l))
      = 0 := by
  rw [List.countP_map]
  simp [Function.comp_def, Notification.isSelectedFor]

theorem countP_isSelectedFor_map_sel (L : List Nat) (s : List Nat) (l : Nat) :
    ((L.map fun k => Notification.selectedSetChanged k s).countP (Notification.isSelectedFor l))
      = L.count l := by
  rw [List.countP_map, List.count_eq_countP]
  rfl

theorem activeLineChanged_inj (x : Option Nat) :
    Function.Injective fun k => Notification.activeLineChanged k x := by
  intro a b hab
  simpa using hab

theorem selectedSetChanged_inj (s : List Nat) :
    Function.Injective fun k => Notification.selectedSetChanged k s := by
  intro a b hab
  simpa using hab

theorem count_sort_eq_one (t : Finset Nat) (l : Nat) (hl : l ∈ t) :
    (t.sort (· ≤ ·)).count l = 1 :=
  List.count_eq_one_of_mem (t.sort_nodup _) ((Finset.mem_sort _).mpr hl)

/-! ### Claim theorems -/

/-- C10: the dummy controller's `GetSelectedSet(selection)` leaves the
caller-supplied output container exactly as it was passed in — it neither
clears nor fills it, so a caller passing a non-empty container does not
receive the empty set. -/
theorem dummy_getSelectedSet_id (c : Dummy.Controller) (container : SubtitleSelection) :
    c.getSelectedSet container = container :=
  rfl

/-- C4 counterexample: the claim says the dummy controller's
`GetSelectedSet()` always returns the empty set, but its empty body leaves a
non-empty caller-supplied container non-empty. -/
theorem dummy_getSelectedSet_cex :
    Dummy.Controller.getSelectedSet ⟨⟩ [3] ≠ [] := by
  decide

/-- C4 (amended): for the dummy controller, every sequence of operations
leaves the (trivial) state unchanged and notifies no listener, even after
`AddSelectionListener`; `GetActiveLine()` always returns none; and
`GetSelectedSet(selection)` leaves the caller's container unchanged — hence
yields the empty set exactly when an empty container is passed in. -/
theorem dummy_controller_inert (c : Dummy.Controller) (ops : List Dummy.Op) :
    c.run ops = (c, []) ∧
    c.getActiveLine = none ∧
    ∀ sel : SubtitleSelection, c.getSelectedSet sel = sel := by
  refine ⟨?_, rfl, fun sel => rfl⟩
  induction ops with
  | nil => rfl
  | cons op ops ih =>
    cases op <;> simpa [Dummy.Controller.run, Dummy.Controller.step,
      Dummy.Controller.setActiveLine, Dummy.Controller.setSelectedSet,
      Dummy.Controller.nextLine, Dummy.Controller.prevLine,
      Dummy.Controller.addSelectionListener, Dummy.Controller.removeSelectionListener]
      using ih

/-- C5 counterexample: the dummy controller implements the interface, yet
`SetActiveLine(some 0)` followed by `GetActiveLine()` returns none, not
`some 0`. -/
theorem dummy_set_get_cex :
    Dummy.Controller.getActiveLine (Dummy.Controller.setActiveLine ⟨⟩ (some 0)).1 ≠ some 0 := by
  decide

/-- C5 (amended): for the reference controller following the interface's
documented contract, `SetActiveLine(x)` followed by `GetActiveLine()`
returns `x`; the law does not hold for every implementation, since the
dummy controller ignores the mutator and always returns none. -/
theorem setActiveLine_then_get (c : Spec.Controller) (x : Option Nat) :
    ((c.setActiveLine x).1).getActiveLine = x := by
  rw [Spec.Controller.setActiveLine]
  split
  · next h => simpa [Spec.Controller.getActiveLine] using h.symm
  · rfl

/-- C1: `SetActiveLine(x)` is a no-op sending no notification when `x`
equals the current active line (including both being none); otherwise it
replaces the active line with `x`, touches nothing else, and every callback
performed is an `OnActiveLineChanged(x)`, exactly one per registered
listener. -/
theorem setActiveLine_contract (c : Spec.Controller) (x : Option Nat) :
    (x = c.activeLine → c.setActiveLine x = (c, [])) ∧
    (x ≠ c.activeLine →
      (c.setActiveLine x).1.activeLine = x ∧
      (c.setActiveLine x).1.selectedSet = c.selectedSet ∧
      (c.setActiveLine x).1.listeners = c.listeners ∧
      (∀ l ∈ c.listeners,
        ((c.setActiveLine x).2.countP fun n => n.listener == l) = 1) ∧
      (∀ n ∈ (c.setActiveLine x).2,
        n.listener ∈ c.listeners ∧ n = Notification.activeLineChanged n.listener x)) := by
  constructor
  · intro h
    simp [Spec.Controller.setActiveLine, h]
  · intro h
    simp only [Spec.Controller.setActiveLine, if_neg h]
    refine ⟨trivial, trivial, trivial, ?_, ?_⟩
    · intro l hl
      rw [Spec.Controller.announceActiveLineChanged, countP_listener_map_active]
      exact count_sort_eq_one _ _ hl
    · intro n hn
      rw [Spec.Controller.announceActiveLineChanged] at hn
      obtain ⟨k, hk, rfl⟩ := List.mem_map.mp hn
      exact ⟨(Finset.mem_sort _).mp hk, rfl⟩

/-- C1 witness. -/
theorem setActiveLine_contract_w :
    (some 2 ≠ (Spec.Controller.mk (some 1) {1} {7}).activeLine) ∧
    (Spec.Controller.setActiveLine ⟨some 1, {1}, {7}⟩ (some 2)).1.activeLine = some 2 :=
  ⟨by decide, ((setActiveLine_contract ⟨some 1, {1}, {7}⟩ (some 2)).2 (by decide)).1⟩

/-- C2: `SetSelectedSet` is atomic — whatever the (implementation-defined)
acceptance condition, afterwards the selected set is either exactly the
requested set or exactly the prior state, never a partial mixture; and when
the selected set does not change (refused, or new content equal to old), no
callback at all is performed. -/
theorem setSelectedSet_atomic (accept : Finset Nat → Bool) (c : Spec.Controller)
    (ns : SubtitleSelection) :
    ((c.setSelectedSet accept ns).1.selectedSet = ns.toFinset ∨
      (c.setSelectedSet accept ns).1 = c) ∧
    ((c.setSelectedSet accept ns).1.selectedSet = c.selectedSet →
      (c.setSelectedSet accept ns).2 = []) := by
  rw [Spec.Controller.setSelectedSet]
  by_cases ha : accept ns.toFinset
  · by_cases hs : ns.toFinset = c.selectedSet
    · simp [ha, hs]
    · simp [ha, hs]
  · simp [ha]

/-- C2 witness. -/
theorem setSelectedSet_atomic_w :
    (Spec.Controller.setSelectedSet (fun _ => true) ⟨none, {1}, {4}⟩ [1, 1]).2 = [] :=
  (setSelectedSet_atomic (fun _ => true) ⟨none, {1}, {4}⟩ [1, 1]).2 (by decide)

/-- C8: calling `SetSelectedSet` with any collection whose elements, taken
as a set, equal the current selected set leaves the state unchanged and
performs no callback, regardless of the element ordering (or duplication)
used to construct the collection, and regardless of the acceptance
condition. -/
theorem setSelectedSet_same_set_silent (accept : Finset Nat → Bool) (c : Spec.Controller)
    (ns : SubtitleSelection) (h : ns.toFinset = c.selectedSet) :
    c.setSelectedSet accept ns = (c, []) := by
  rw [Spec.Controller.setSelectedSet]
  by_cases ha : accept ns.toFinset
  · simp [ha, h]
  · simp [ha]

/-- C8 witness: `[2, 1, 2]` as a set is `{1, 2}`, the current selected set,
so the call is silent even though the ordering differs and an element is
duplicated. -/
theorem setSelectedSet_same_set_silent_w :
    (([2, 1, 2] : SubtitleSelection).toFinset
        = (Spec.Controller.mk none {1, 2} {9}).selectedSet) ∧
    Spec.Controller.setSelectedSet (fun _ => false) ⟨none, {1, 2}, {9}⟩ [2, 1, 2]
      = (⟨none, {1, 2}, {9}⟩, []) :=
  ⟨by decide, setSelectedSet_same_set_silent (fun _ => false) ⟨none, {1, 2}, {9}⟩ [2, 1, 2]
    (by decide)⟩

/-- C9: the base controller's `AnnounceActiveLineChanged(x)` (resp.
`AnnounceSelectedSetChanged(s)`) leaves the listener set unchanged, invokes
the corresponding callback exactly once on each currently registered
listener, passes the identical argument to every listener, and does so
unconditionally — the base controller stores no previous value to compare
against, so this holds for every `x` (resp. `s`), announced change or
not. -/
theorem announce_contract (c : Base.Controller) (x : Option Nat) (s : SubtitleSelection) :
    (c.announceActiveLineChanged x).1 = c ∧
    (c.announceSelectedSetChanged s).1 = c ∧
    (∀ l ∈ c.listeners,
      (c.announceActiveLineChanged x).2.count (Notification.activeLineChanged l x) = 1) ∧
    (∀ n ∈ (c.announceActiveLineChanged x).2,
      n.listener ∈ c.listeners ∧ n = Notification.activeLineChanged n.listener x) ∧
    (∀ l ∈ c.listeners,
      (c.announceSelectedSetChanged s).2.count (Notification.selectedSetChanged l s) = 1) ∧
    (∀ n ∈ (c.announceSelectedSetChanged s).2,
      n.listener ∈ c.listeners ∧ n = Notification.selectedSetChanged n.listener s) := by
  refine ⟨rfl, rfl, ?_, ?_, ?_, ?_⟩
  · intro l hl
    rw [Base.Controller.announceActiveLineChanged]
    rw [List.count_map_of_injective _ _ (activeLineChanged_inj x)]
    exact count_sort_eq_one _ _ hl
  · intro n hn
    rw [Base.Controller.announceActiveLineChanged] at hn
    obtain ⟨k, hk, rfl⟩ := List.mem_map.mp hn
    exact ⟨(Finset.mem_sort _).mp hk, rfl⟩
  · intro l hl
    rw [Base.Controller.announceSelectedSetChanged]
    rw [List.count_map_of_injective _ _ (selectedSetChanged_inj s)]
    exact count_sort_eq_one _ _ hl
  · intro n hn
    rw [Base.Controller.announceSelectedSetChanged] at hn
    obtain ⟨k, hk, rfl⟩ := List.mem_map.mp hn
    exact ⟨(Finset.mem_sort _).mp hk, rfl⟩

/-- C9 witness. -/
theorem announce_contract_w :
    (3 ∈ (Base.Controller.mk {3, 5}).listeners) ∧
    ((Base.Controller.mk {3, 5}).announceActiveLineChanged (some 8)).2.count
      (Notification.activeLineChanged 3 (some 8)) = 1 :=
  ⟨by decide, (announce_contract ⟨{3, 5}⟩ (some 8) []).2.2.1 3 (by decide)⟩

/-- C7: `AddSelectionListener` / `RemoveSelectionListener` are idempotent
set-membership operations with no notification side effects — adding an
already-registered listener or removing an absent one leaves the controller
unchanged — and after registering the same listener twice, any announcement
delivers at most one callback to any given listener. -/
theorem listener_registration_props (c : Base.Controller) (l : Nat) (x : Option Nat)
    (s : SubtitleSelection) :
    (c.addSelectionListener l).addSelectionListener l = c.addSelectionListener l ∧
    (c.removeSelectionListener l).removeSelectionListener l = c.removeSelectionListener l ∧
    (l ∈ c.listeners → c.addSelectionListener l = c) ∧
    (l ∉ c.listeners → c.removeSelectionListener l = c) ∧
    (c.step (Base.Op.add l)).2 = [] ∧
    (c.step (Base.Op.remove l)).2 = [] ∧
    (∀ k, (((c.addSelectionListener l).addSelectionListener l).announceActiveLineChanged x).2.countP
        (fun n => n.listener == k) ≤ 1) ∧
    (∀ k, (((c.addSelectionListener l).addSelectionListener l).announceSelectedSetChanged s).2.countP
        (fun n => n.listener == k) ≤ 1) := by
  obtain ⟨t⟩ := c
  refine ⟨?_, ?_, ?_, ?_, rfl, rfl, ?_, ?_⟩
  · simp [Base.Controller.addSelectionListener]
  · simp [Base.Controller.removeSelectionListener, Finset.erase_idem]
  · intro hl
    simp [Base.Controller.addSelectionListener, Finset.insert_eq_self.mpr hl]
  · intro hl
    simp [Base.Controller.removeSelectionListener, Finset.erase_eq_of_not_mem hl]
  · intro k
    rw [Base.Controller.announceActiveLineChanged, countP_listener_map_active]
    exact List.nodup_iff_count_le_one.mp (Finset.sort_nodup _ _) k
  · intro k
    rw [Base.Controller.announceSelectedSetChanged, countP_listener_map_sel]
    exact List.nodup_iff_count_le_one.mp (Finset.sort_nodup _ _) k

/-- C7 witness. -/
theorem listener_registration_props_w :
    (1 ∈ (Base.Controller.mk {1}).listeners ∧
      (Base.Controller.mk {1}).addSelectionListener 1 = ⟨{1}⟩) ∧
    (2 ∉ (Base.Controller.mk {1}).listeners ∧
      (Base.Controller.mk {1}).removeSelectionListener 2 = ⟨{1}⟩) :=
  ⟨⟨by decide, (listener_registration_props ⟨{1}⟩ 1 none []).2.2.1 (by decide)⟩,
   ⟨by decide, (listener_registration_props ⟨{1}⟩ 2 none []).2.2.2.1 (by decide)⟩⟩

theorem navigate_cases (f : Nat → Option Nat) (c : Spec.Controller) :
    (c.activeLine.bind f = none → c.navigate f = (c, [])) ∧
    (∀ l', c.activeLine.bind f = some l' →
      (c.navigate f).1.activeLine = some l' ∧
      (c.navigate f).1.selectedSet = {l'} ∧
      ∀ l ∈ c.listeners,
        (c.navigate f).2.countP (Notification.isActiveFor l) = 1 ∧
        (c.navigate f).2.countP (Notification.isSelectedFor l) = 1) := by
  constructor
  · intro h
    simp only [Spec.Controller.navigate, h]
  · intro l' h
    simp only [Spec.Controller.navigate, h]
    refine ⟨trivial, trivial, ?_⟩
    intro l hl
    constructor
    · rw [List.countP_append, Spec.Controller.announceActiveLineChanged,
        Spec.Controller.announceSelectedSetChanged, countP_isActiveFor_map_active,
        countP_isActiveFor_map_sel, count_sort_eq_one _ _ hl]
    · rw [List.countP_append, Spec.Controller.announceActiveLineChanged,
        Spec.Controller.announceSelectedSetChanged, countP_isSelectedFor_map_active,
        countP_isSelectedFor_map_sel, count_sort_eq_one _ _ hl]

/-- C3: `NextLine()` (resp. `PrevLine()`) with no logical next (resp.
previous) line leaves the active line and the selected set unchanged and
fires nothing; when the neighbor `l'` exists, it sets the active line to
`l'`, resets the selected set to the singleton of `l'`, and delivers exactly
one `OnActiveLineChanged` and exactly one `OnSelectedSetChanged` to each
registered listener. -/
theorem navigation_contract (doc : List Nat) (c : Spec.Controller) :
    (c.activeLine.bind (Spec.nextLineIn doc) = none → c.nextLine doc = (c, [])) ∧
    (c.activeLine.bind (Spec.prevLineIn doc) = none → c.prevLine doc = (c, [])) ∧
    (∀ l', c.activeLine.bind (Spec.nextLineIn doc) = some l' →
      (c.nextLine doc).1.activeLine = some l' ∧
      (c.nextLine doc).1.selectedSet = {l'} ∧
      ∀ l ∈ c.listeners,
        (c.nextLine doc).2.countP (Notification.isActiveFor l) = 1 ∧
        (c.nextLine doc).2.countP (Notification.isSelectedFor l) = 1) ∧
    (∀ l', c.activeLine.bind (Spec.prevLineIn doc) = some l' →
      (c.prevLine doc).1.activeLine = some l' ∧
      (c.prevLine doc).1.selectedSet = {l'} ∧
      ∀ l ∈ c.listeners,
        (c.prevLine doc).2.countP (Notification.isActiveFor l) = 1 ∧
        (c.prevLine doc).2.countP (Notification.isSelectedFor l) = 1) :=
  ⟨(navigate_cases (Spec.nextLineIn doc) c).1,
   (navigate_cases (Spec.prevLineIn doc) c).1,
   (navigate_cases (Spec.nextLineIn doc) c).2,
   (navigate_cases (Spec.prevLineIn doc) c).2⟩

/-- C3 witness: in the document `[1, 2, 3]`, `NextLine()` from active line 1
moves to 2; `PrevLine()` from 2 moves to 1; `NextLine()` from the last line
3 is a silent no-op. -/
theorem navigation_contract_w :
    (Spec.Controller.nextLine [1, 2, 3] ⟨some 1, {1}, {5}⟩).1.activeLine = some 2 ∧
    (Spec.Controller.prevLine [1, 2, 3] ⟨some 2, {2}, {5}⟩).1.activeLine = some 1 ∧
    Spec.Controller.nextLine [1, 2, 3] ⟨some 3, {3}, {5}⟩ = (⟨some 3, {3}, {5}⟩, []) :=
  ⟨((navigation_contract [1, 2, 3] ⟨some 1, {1}, {5}⟩).2.2.1 2 (by decide)).1,
   ((navigation_contract [1, 2, 3] ⟨some 2, {2}, {5}⟩).2.2.2 1 (by decide)).1,
   (navigation_contract [1, 2, 3] ⟨some 3, {3}, {5}⟩).1 (by decide)⟩

theorem run_silent_for_removed (l : Nat) (ops : List Base.Op) :
    ∀ c : Base.Controller, l ∉ c.listeners → Base.Op.add l ∉ ops →
      (((c.run ops).2.countP fun n => n.listener == l) = 0 ∧
        l ∉ (c.run ops).1.listeners) := by
  induction ops with
  | nil => exact fun c hc _ => ⟨rfl, hc⟩
  | cons op ops ih =>
    intro c hc hops
    have hop : op ≠ Base.Op.add l := fun h => hops (h ▸ List.mem_cons_self op ops)
    have hops' : Base.Op.add l ∉ ops := fun h => hops (List.mem_cons_of_mem _ h)
    cases op with
    | add k =>
      have hkl : k ≠ l := fun hk => hop (by rw [hk])
      have h1 : l ∉ (Base.Controller.addSelectionListener c k).listeners := by
        simp only [Base.Controller.addSelectionListener, Finset.mem_insert]
        rintro (h | h)
        · exact hkl h.symm
        · exact hc h
      simpa [Base.Controller.run, Base.Controller.step] using
        ih (c.addSelectionListener k) h1 hops'
    | remove k =>
      have h1 : l ∉ (Base.Controller.removeSelectionListener c k).listeners :=
        fun h => hc (Finset.mem_of_mem_erase h)
      simpa [Base.Controller.run, Base.Controller.step] using
        ih (c.removeSelectionListener k) h1 hops'
    | announceActive x =>
      have h0 : (((c.listeners.sort (· ≤ ·)).map
          fun k => Notification.activeLineChanged k x).countP fun n => n.listener == l) = 0 := by
        rw [countP_listener_map_active]
        exact List.count_eq_zero_of_not_mem fun h => hc ((Finset.mem_sort _).mp h)
      have hrest := ih c hc hops'
      constructor
      · simp [Base.Controller.run, Base.Controller.step,
          Base.Controller.announceActiveLineChanged, List.countP_append, h0, hrest.1]
      · simpa [Base.Controller.run, Base.Controller.step,
          Base.Controller.announceActiveLineChanged] using hrest.2
    | announceSel s =>
      have h0 : (((c.listeners.sort (· ≤ ·)).map
          fun k => Notification.selectedSetChanged k s).countP fun n => n.listener == l) = 0 := by
        rw [countP_listener_map_sel]
        exact List.count_eq_zero_of_not_mem fun h => hc ((Finset.mem_sort _).mp h)
      have hrest := ih c hc hops'
      constructor
      · simp [Base.Controller.run, Base.Controller.step,
          Base.Controller.announceSelectedSetChanged, List.countP_append, h0, hrest.1]
      · simpa [Base.Controller.run, Base.Controller.step,
          Base.Controller.announceSelectedSetChanged] using hrest.2

/-- C6: once `RemoveSelectionListener(l)` has run on the base controller,
no subsequent sequence of operations that does not register `l` again
delivers any callback to `l`. -/
theorem removed_listener_silent (c : Base.Controller) (l : Nat) (ops : List Base.Op)
    (h : Base.Op.add l ∉ ops) :
    ((((c.removeSelectionListener l).run ops).2.countP fun n => n.listener == l) = 0) :=
  (run_silent_for_removed l ops (c.removeSelectionListener l)
    (Finset.not_mem_erase l c.listeners) h).1

/-- C6 witness: listener 2 is removed, then another listener is added and
both kinds of announcement fire; listener 2 receives nothing. -/
theorem removed_listener_silent_w :
    (Base.Op.add 2 ∉
      [Base.Op.add 4, Base.Op.announceActive (some 3), Base.Op.announceSel [6]]) ∧
    ((((Base.Controller.mk {1, 2}).removeSelectionListener 2).run
        [Base.Op.add 4, Base.Op.announceActive (some 3),
          Base.Op.announceSel [6]]).2.countP fun n => n.listener == 2) = 0 :=
  ⟨by decide, removed_listener_silent ⟨{1, 2}⟩ 2
    [Base.Op.add 4, Base.Op.announceActive (some 3), Base.Op.announceSel [6]] (by decide)⟩
